import Mathlib

/-!
A shallow embedding of the `debezium-operator` reconciliation core.

The Go sources embedded here are:
* `internal/util` : `ConfigsEqual` — comparison of two `map[string]string`
  configuration maps.
* `internal/controller` : `DebeziumConnectorReconciler.Reconcile` together
  with its HTTP helpers `connectorExists`, `getDebeziumConnectorConfig`,
  `createDebeziumConnector`, `updateDebeziumConnector`,
  `deleteDebeziumConnector`.
* `api/v1alpha1` : the `DebeziumConnector` schema types and the two
  revisions of the validating-webhook logic `validateDebeziumConnector`
  (a purely local check, and a variant that delegates to the upstream
  validation endpoint).

Go `map[string]string` values are embedded as association lists with
pairwise distinct keys (`Cfg` with `KeysNodup`); network responses are
passed in explicitly through an environment record, one slot per HTTP
call the pass can make, so a reconcile pass becomes a pure function of
the fetched record and that environment.  JSON decoding of a response
body into a string map is represented by the decoded result carried in
the environment next to the raw body.
-/

/-- A Go `map[string]string`, embedded as an association list.
Go maps have pairwise distinct keys; that invariant is stated
separately as `KeysNodup` and assumed where a proof needs it. -/
abbrev Cfg := List (String × String)

/-- Go map indexing `m[k]` in its comma-ok form: the value stored at
`k`, if any. -/
def cfgGet (c : Cfg) (k : String) : Option String :=
  match c with
  | [] => none
  | (k2, v) :: rest => if k2 = k then some v else cfgGet rest k

/-- Go map indexing `m[k]` in its one-result form: missing keys yield
the zero value `""`. -/
def cfgGetD (c : Cfg) (k : String) : String :=
  (cfgGet c k).getD ""

/-- The Go-map invariant: keys are pairwise distinct. -/
abbrev KeysNodup (c : Cfg) : Prop :=
  (c.map Prod.fst).Nodup

/-- `internal/util.ConfigsEqual`: length check, then every entry of `a`
must be present in `b` with the same value. -/
def ConfigsEqual (a b : Cfg) : Bool :=
  if a.length ≠ b.length then false
  else a.all fun kv =>
    match cfgGet b kv.1 with
    | none => false
    | some bv => decide (bv = kv.2)

/-- `metav1.Condition`, as persisted in the status sub-object. -/
structure Condition where
  condType : String
  status : String
  reason : String
  message : String
  lastTransitionTime : String
deriving DecidableEq

/-- `api/v1alpha1.DebeziumConnectorStatus`: the observed state carries
only a condition list; the type declares no phase field. -/
structure DebeziumConnectorStatus where
  conditions : List Condition
deriving DecidableEq

/-- `api/v1alpha1.DebeziumConnectorSpec`. -/
structure DebeziumConnectorSpec where
  debeziumHost : String
  config : Cfg
deriving DecidableEq

/-- The slice of `metav1.ObjectMeta` the program reads or writes:
the object name, whether `DeletionTimestamp.IsZero()` holds, and the
finalizer list. -/
structure ObjectMeta where
  name : String
  deletionTimestampIsZero : Bool
  finalizers : List String
deriving DecidableEq

/-- `api/v1alpha1.DebeziumConnector`. -/
structure DebeziumConnector where
  metadata : ObjectMeta
  spec : DebeziumConnectorSpec
  status : DebeziumConnectorStatus
deriving DecidableEq

/-- `internal/controller.debeziumFinalizer`. -/
def debeziumFinalizer : String := "debeziumconnector.finalizers.api.debezium"

/-- `controllerutil.ContainsFinalizer`. -/
def containsFinalizer (o : DebeziumConnector) (f : String) : Bool :=
  o.metadata.finalizers.contains f

/-- `controllerutil.AddFinalizer`: append the finalizer unless already
present. -/
def addFinalizer (o : DebeziumConnector) (f : String) : DebeziumConnector :=
  if o.metadata.finalizers.contains f then o
  else { o with metadata := { o.metadata with
           finalizers := o.metadata.finalizers ++ [f] } }

/-- `controllerutil.RemoveFinalizer`: drop every occurrence of the
finalizer. -/
def removeFinalizer (o : DebeziumConnector) (f : String) : DebeziumConnector :=
  { o with metadata := { o.metadata with
      finalizers := o.metadata.finalizers.filter (fun x => x ≠ f) } }

/-- An HTTP response as the helpers see it: status code and body. -/
structure HttpResp where
  status : Nat
  body : String
deriving DecidableEq

/-- Outcome of one HTTP round trip: either the transport failed
(`http.Client` returned a non-nil error) or a response arrived. -/
inductive HttpOutcome where
  | transportError (msg : String)
  | response (resp : HttpResp)
deriving DecidableEq

deriving instance DecidableEq for Except

/-- Outcome of the `GET /connectors/{name}/config` round trip.  The
decoded field models `json.Decoder.Decode` applied to the body: either
a decode error or the resulting string map. -/
inductive GetCfgOutcome where
  | transportError (msg : String)
  | response (status : Nat) (body : String) (decoded : Except String Cfg)
deriving DecidableEq

/-- The error values the controller's HTTP helpers can return. -/
inductive ConnError where
  | transport (msg : String)
  | unexpectedStatus (status : Nat) (body : String)
  | decodeFailure (msg : String)
deriving DecidableEq

/-- `connectorExists`: 200 means present, 404 means absent, anything
else is an error carrying the status and response body. -/
def connectorExists (o : HttpOutcome) : Except ConnError Bool :=
  match o with
  | .transportError m => .error (.transport m)
  | .response r =>
    if r.status = 200 then .ok true
    else if r.status = 404 then .ok false
    else .error (.unexpectedStatus r.status r.body)

/-- `getDebeziumConnectorConfig`: non-200 is an error carrying the
body; on 200 the body is JSON-decoded into a string map. -/
def getDebeziumConnectorConfig (o : GetCfgOutcome) : Except ConnError Cfg :=
  match o with
  | .transportError m => .error (.transport m)
  | .response status body decoded =>
    if status ≠ 200 then .error (.unexpectedStatus status body)
    else
      match decoded with
      | .error m => .error (.decodeFailure m)
      | .ok config => .ok config

/-- `createDebeziumConnector`: accepts 201 or 200, any other status is
an error carrying the body. -/
def createDebeziumConnector (o : HttpOutcome) : Except ConnError Unit :=
  match o with
  | .transportError m => .error (.transport m)
  | .response r =>
    if r.status ≠ 201 ∧ r.status ≠ 200 then
      .error (.unexpectedStatus r.status r.body)
    else .ok ()

/-- `updateDebeziumConnector`: only 200 succeeds. -/
def updateDebeziumConnector (o : HttpOutcome) : Except ConnError Unit :=
  match o with
  | .transportError m => .error (.transport m)
  | .response r =>
    if r.status ≠ 200 then .error (.unexpectedStatus r.status r.body)
    else .ok ()

/-- `deleteDebeziumConnector`: accepts 204 or 200, any other status is
an error carrying the body. -/
def deleteDebeziumConnector (o : HttpOutcome) : Except ConnError Unit :=
  match o with
  | .transportError m => .error (.transport m)
  | .response r =>
    if r.status ≠ 204 ∧ r.status ≠ 200 then
      .error (.unexpectedStatus r.status r.body)
    else .ok ()

/-- Observable actions of one reconcile pass, in issue order: calls to
`r.Update` (persisting the record) and the five upstream HTTP calls,
each carrying the arguments the source passes. -/
inductive Event where
  | persistUpdate (rec : DebeziumConnector)
  | callExists (host name : String)
  | callGetConfig (host name : String)
  | callCreate (host : String) (config : Cfg)
  | callUpdate (host : String) (config : Cfg)
  | callDelete (host name : String)
deriving DecidableEq

/-- The non-nil `error` values `Reconcile` can return. -/
inductive ReconcileError where
  | kubeGetError (msg : String)
  | kubeUpdateError (msg : String)
  | upstream (e : ConnError)
deriving DecidableEq

/-- `ctrl.Result`: `requeueAfter = 0` is the zero value `ctrl.Result{}`
(no requeue requested); the source's `60 * time.Second` is recorded in
seconds. -/
structure CtrlResult where
  requeueAfter : Nat
deriving DecidableEq

/-- Outcome of the initial `r.Get` on the store: the record is absent,
the lookup failed some other way, or the record was fetched. -/
inductive KGetOutcome where
  | notFound
  | otherError (msg : String)
  | found (rec : DebeziumConnector)
deriving DecidableEq

/-- The environment of one reconcile pass: the store lookup outcome,
the outcome of the (at most one) `r.Update` call, and one HTTP outcome
per upstream call the pass may issue. -/
structure Env where
  kGet : KGetOutcome
  kUpdate : Except String Unit
  existsResp : HttpOutcome
  getConfigResp : GetCfgOutcome
  createResp : HttpOutcome
  updateResp : HttpOutcome
  deleteResp : HttpOutcome
deriving DecidableEq

/-- Result of a pass that did fetch a record: the returned
`ctrl.Result`, the returned error (if non-nil), the record as the
store holds it after the pass, and the issued events in order. -/
structure FetchedOutput where
  res : CtrlResult
  err : Option ReconcileError
  stored : DebeziumConnector
  events : List Event
deriving DecidableEq

/-- Result of a whole `Reconcile` invocation; `stored = none` when no
record was fetched. -/
structure PassOutput where
  res : CtrlResult
  err : Option ReconcileError
  stored : Option DebeziumConnector
  events : List Event
deriving DecidableEq

/-- The tail of the non-deletion path, entered once the finalizer is
ensured: the existence check, then create, or get-config / compare /
update, ending in `ctrl.Result{RequeueAfter: 60 * time.Second}` on
success.  `dbc` is both the in-memory and the stored record here (no
further `r.Update` happens), `evs` the events issued so far. -/
def reconcileSync (env : Env) (dbc : DebeziumConnector)
    (evs : List Event) : FetchedOutput :=
  let host := dbc.spec.debeziumHost
  let name := cfgGetD dbc.spec.config "name"
  let evs1 := evs ++ [Event.callExists host name]
  match connectorExists env.existsResp with
  | .error e => ⟨⟨0⟩, some (.upstream e), dbc, evs1⟩
  | .ok present =>
    if present = false then
      let evs2 := evs1 ++ [Event.callCreate host dbc.spec.config]
      match createDebeziumConnector env.createResp with
      | .error e => ⟨⟨0⟩, some (.upstream e), dbc, evs2⟩
      | .ok _ => ⟨⟨60⟩, none, dbc, evs2⟩
    else
      let evs2 := evs1 ++ [Event.callGetConfig host name]
      match getDebeziumConnectorConfig env.getConfigResp with
      | .error e => ⟨⟨0⟩, some (.upstream e), dbc, evs2⟩
      | .ok externalConfig =>
        if ConfigsEqual externalConfig dbc.spec.config = false then
          let evs3 := evs2 ++ [Event.callUpdate host dbc.spec.config]
          match updateDebeziumConnector env.updateResp with
          | .error e => ⟨⟨0⟩, some (.upstream e), dbc, evs3⟩
          | .ok _ => ⟨⟨60⟩, none, dbc, evs3⟩
        else ⟨⟨60⟩, none, dbc, evs2⟩

/-- The non-deletion path of `Reconcile`: ensure the finalizer is
present (persisting via `r.Update` when it was absent), then continue
with `reconcileSync`. -/
def reconcileNormal (env : Env) (dbc : DebeziumConnector) : FetchedOutput :=
  if containsFinalizer dbc debeziumFinalizer then
    reconcileSync env dbc []
  else
    let dbc1 := addFinalizer dbc debeziumFinalizer
    match env.kUpdate with
    | .error m => ⟨⟨0⟩, some (.kubeUpdateError m), dbc, [Event.persistUpdate dbc1]⟩
    | .ok _ => reconcileSync env dbc1 [Event.persistUpdate dbc1]

/-- The deletion path of `Reconcile` (`DeletionTimestamp` non-zero):
with the finalizer present, issue the upstream delete; only on its
success remove the finalizer and persist; without the finalizer, do
nothing. -/
def reconcileDeletion (env : Env) (dbc : DebeziumConnector) : FetchedOutput :=
  if containsFinalizer dbc debeziumFinalizer then
    let host := dbc.spec.debeziumHost
    let name := cfgGetD dbc.spec.config "name"
    match deleteDebeziumConnector env.deleteResp with
    | .error e => ⟨⟨0⟩, some (.upstream e), dbc, [Event.callDelete host name]⟩
    | .ok _ =>
      let dbc2 := removeFinalizer dbc debeziumFinalizer
      match env.kUpdate with
      | .error m =>
        ⟨⟨0⟩, some (.kubeUpdateError m), dbc,
          [Event.callDelete host name, Event.persistUpdate dbc2]⟩
      | .ok _ =>
        ⟨⟨0⟩, none, dbc2,
          [Event.callDelete host name, Event.persistUpdate dbc2]⟩
  else ⟨⟨0⟩, none, dbc, []⟩

/-- `Reconcile` after a successful `r.Get`: branch on
`DeletionTimestamp.IsZero()`. -/
def reconcileFetched (env : Env) (dbc : DebeziumConnector) : FetchedOutput :=
  if dbc.metadata.deletionTimestampIsZero = false then
    reconcileDeletion env dbc
  else
    reconcileNormal env dbc

/-- `internal/controller.Reconcile`: fetch the record; absent records
end the pass successfully, other lookup failures return the error;
otherwise continue with the fetched record. -/
def Reconcile (env : Env) : PassOutput :=
  match env.kGet with
  | .notFound => ⟨⟨0⟩, none, none, []⟩
  | .otherError m => ⟨⟨0⟩, some (.kubeGetError m), none, []⟩
  | .found dbc =>
    let out := reconcileFetched env dbc
    ⟨out.res, out.err, some out.stored, out.events⟩

/-- Whether an event is a mutating upstream call (create, update or
delete). -/
def isMutatingCall : Event → Bool
  | .persistUpdate _ => false
  | .callExists _ _ => false
  | .callGetConfig _ _ => false
  | .callCreate _ _ => true
  | .callUpdate _ _ => true
  | .callDelete _ _ => true

/-- Whether an event is a persist (`r.Update`) of the record. -/
def isPersistUpdate : Event → Bool
  | .persistUpdate _ => true
  | .callExists _ _ => false
  | .callGetConfig _ _ => false
  | .callCreate _ _ => false
  | .callUpdate _ _ => false
  | .callDelete _ _ => false

/-- A `field.Error` as the webhook builds them: `field.Required` or
`field.Invalid`, with the field path rendered as a dotted string. -/
inductive FieldError where
  | required (path : String) (detail : String)
  | fieldInvalid (path : String) (value : String) (detail : String)
deriving DecidableEq

/-- A non-nil error returned by `validateDebeziumConnector`: either
`apierrors.NewInvalid` aggregating field errors for the named object,
or a plain error from talking to the validation endpoint. -/
inductive AdmissionError where
  | invalid (objName : String) (errs : List FieldError)
  | internalError (msg : String)
deriving DecidableEq

/-- Outcome of the POST to the upstream
`/connector-plugins/{class}/config/validate` endpoint.  The
`decodedErrors` field models `json.Unmarshal` of the body's `errors`
object into key/message pairs. -/
inductive ValidateRespOutcome where
  | transportError (msg : String)
  | response (status : Nat) (body : String)
      (decodedErrors : Except String (List (String × String)))
deriving DecidableEq

/-- The local-check revision of `validateDebeziumConnector`
(`api/v1alpha1`): `debeziumHost` must be non-empty, the config must be
non-empty and contain the keys `name` and `connector.class`; no
network call is made.  Returns `none` when admission succeeds. -/
def validateDebeziumConnectorLocal (r : DebeziumConnector) :
    Option AdmissionError :=
  let hostErrs : List FieldError :=
    if r.spec.debeziumHost = "" then
      [FieldError.required "spec.debeziumHost" "debeziumHost cannot be empty"]
    else []
  let cfgErrs : List FieldError :=
    if r.spec.config.length = 0 then
      [FieldError.fieldInvalid "spec.config" "" "config cannot be empty"]
    else
      (["name", "connector.class"].filter
          (fun k => (cfgGet r.spec.config k).isNone)).map
        (fun k => FieldError.required ("spec.config." ++ k)
          ("config must include key " ++ k))
  let allErrs := hostErrs ++ cfgErrs
  if allErrs.length = 0 then none
  else some (AdmissionError.invalid r.metadata.name allErrs)

/-- The delegating revision of `validateDebeziumConnector`
(`api/v1alpha1`): locally it requires only a non-empty `debeziumHost`
and the presence of `connector.class`; when those hold it POSTs the
candidate config to the upstream validation endpoint and surfaces any
field errors that endpoint reports.  Returns `none` when admission
succeeds. -/
def validateDebeziumConnectorExt (r : DebeziumConnector)
    (resp : ValidateRespOutcome) : Option AdmissionError :=
  let hostErrs : List FieldError :=
    if r.spec.debeziumHost = "" then
      [FieldError.required "spec.debeziumHost" "debeziumHost cannot be empty"]
    else []
  let ccErrs : List FieldError :=
    if (cfgGet r.spec.config "connector.class").isNone then
      [FieldError.required "spec.config.connector.class"
        "config must include key connector.class"]
    else []
  let allErrs := hostErrs ++ ccErrs
  if allErrs.length ≠ 0 then
    some (AdmissionError.invalid r.metadata.name allErrs)
  else
    match resp with
    | .transportError m =>
      some (.internalError ("error calling Debezium validation endpoint: " ++ m))
    | .response status body decodedErrors =>
      if status ≠ 200 then
        some (.internalError ("debezium validation endpoint returned status "
          ++ toString status ++ ": " ++ body))
      else
        match decodedErrors with
        | .error m =>
          some (.internalError ("failed to unmarshal validation response: " ++ m))
        | .ok errs =>
          if errs.length ≠ 0 then
            some (AdmissionError.invalid r.metadata.name
              (errs.map (fun km =>
                FieldError.fieldInvalid ("spec.config." ++ km.1)
                  (cfgGetD r.spec.config km.1) km.2)))
          else none

/-- A small desired configuration in the shape the README documents. -/
def sampleConfig : Cfg :=
  [("name", "c1"),
   ("connector.class", "io.debezium.connector.mysql.MySqlConnector")]

/-- A record marked for deletion that carries the finalizer. -/
def sampleDeletingRecord : DebeziumConnector :=
  { metadata := { name := "c1", deletionTimestampIsZero := false,
                  finalizers := [debeziumFinalizer] }
    spec := { debeziumHost := "http://dbz:8083", config := sampleConfig }
    status := { conditions := [] } }

/-- A live (non-deleted) record that already carries the finalizer. -/
def sampleLiveRecord : DebeziumConnector :=
  { metadata := { name := "c1", deletionTimestampIsZero := true,
                  finalizers := [debeziumFinalizer] }
    spec := { debeziumHost := "http://dbz:8083", config := sampleConfig }
    status := { conditions := [] } }

/-- A live record that does not yet carry the finalizer. -/
def sampleFreshRecord : DebeziumConnector :=
  { metadata := { name := "c1", deletionTimestampIsZero := true,
                  finalizers := [] }
    spec := { debeziumHost := "http://dbz:8083", config := sampleConfig }
    status := { conditions := [] } }

/-- Environment for the deletion pass whose upstream DELETE answers
404: the connector is already absent. -/
def envDelete404 : Env :=
  { kGet := .found sampleDeletingRecord
    kUpdate := .ok ()
    existsResp := .response ⟨404, ""⟩
    getConfigResp := .response 200 "" (.ok [])
    createResp := .response ⟨201, ""⟩
    updateResp := .response ⟨200, ""⟩
    deleteResp := .response ⟨404, ""⟩ }

/-- Environment where the connector is present and its observed config
matches the desired one exactly. -/
def envNoDrift : Env :=
  { kGet := .found sampleLiveRecord
    kUpdate := .ok ()
    existsResp := .response ⟨200, ""⟩
    getConfigResp := .response 200 "" (.ok sampleConfig)
    createResp := .response ⟨201, ""⟩
    updateResp := .response ⟨200, ""⟩
    deleteResp := .response ⟨204, ""⟩ }

/-- Environment where the connector is present but the observed config
has `tasks.max` drifted. -/
def envDrift : Env :=
  { kGet := .found sampleLiveRecord
    kUpdate := .ok ()
    existsResp := .response ⟨200, ""⟩
    getConfigResp := .response 200 ""
      (.ok (sampleConfig ++ [("tasks.max", "2")]))
    createResp := .response ⟨201, ""⟩
    updateResp := .response ⟨200, ""⟩
    deleteResp := .response ⟨204, ""⟩ }

/-- Environment where the connector is absent and the CREATE call is
answered with a 500: an injected create failure. -/
def envCreateFails : Env :=
  { kGet := .found sampleFreshRecord
    kUpdate := .ok ()
    existsResp := .response ⟨404, ""⟩
    getConfigResp := .response 200 "" (.ok [])
    createResp := .response ⟨500, "boom"⟩
    updateResp := .response ⟨200, ""⟩
    deleteResp := .response ⟨204, ""⟩ }

/-- Environment whose store lookup reports the record as gone. -/
def envNotFound : Env :=
  { kGet := .notFound
    kUpdate := .ok ()
    existsResp := .response ⟨200, ""⟩
    getConfigResp := .response 200 "" (.ok [])
    createResp := .response ⟨201, ""⟩
    updateResp := .response ⟨200, ""⟩
    deleteResp := .response ⟨204, ""⟩ }

/-- A record whose config lacks the `name` key but has
`connector.class`. -/
def namelessRecord : DebeziumConnector :=
  { metadata := { name := "r1", deletionTimestampIsZero := true,
                  finalizers := [] }
    spec := { debeziumHost := "http://dbz:8083",
              config := [("connector.class",
                "io.debezium.connector.mysql.MySqlConnector")] }
    status := { conditions := [] } }

/-- An upstream validation response reporting no field errors. -/
def validateOkResp : ValidateRespOutcome := .response 200 "" (.ok [])
theorem cfgGet_eq_some_mem {c : Cfg} {k v : String}
    (h : cfgGet c k = some v) : (k, v) ∈ c := by
  induction c with
  | nil => simp [cfgGet] at h
  | cons hd tl ih =>
    obtain ⟨k2, v2⟩ := hd
    rw [cfgGet] at h
    by_cases hk : k2 = k
    · rw [if_pos hk] at h
      injection h with hv
      subst hk; subst hv
      exact List.mem_cons_self _ _
    · rw [if_neg hk] at h
      exact List.mem_cons_of_mem _ (ih h)

theorem cfgGet_eq_none_iff {c : Cfg} {k : String} :
    cfgGet c k = none ↔ k ∉ c.map Prod.fst := by
  induction c with
  | nil => simp [cfgGet]
  | cons hd tl ih =>
    rw [cfgGet]
    by_cases hk : hd.1 = k
    · simp [hk]
    · simp [hk, ih, Ne.symm hk]

theorem mem_cfgGet_of_nodup {c : Cfg} {k v : String}
    (hc : KeysNodup c) (h : (k, v) ∈ c) : cfgGet c k = some v := by
  induction c with
  | nil => simp at h
  | cons hd tl ih =>
    have hc2 : KeysNodup tl := (List.nodup_cons.mp hc).2
    rcases List.mem_cons.mp h with h1 | h1
    · subst h1
      simp [cfgGet]
    · have hne : hd.1 ≠ k := by
        intro he
        have : hd.1 ∉ tl.map Prod.fst := (List.nodup_cons.mp hc).1
        exact this (he ▸ List.mem_map_of_mem Prod.fst h1)
      rw [cfgGet, if_neg hne]
      exact ih hc2 h1

theorem ConfigsEqual_eq_true_iff {a b : Cfg} :
    ConfigsEqual a b = true ↔
      a.length = b.length ∧ ∀ kv ∈ a, cfgGet b kv.1 = some kv.2 := by
  unfold ConfigsEqual
  by_cases h : a.length = b.length
  · rw [if_neg (by simp [h])]
    simp only [List.all_eq_true]
    constructor
    · intro hall
      refine ⟨h, fun kv hm => ?_⟩
      have hkv := hall kv hm
      cases hb2 : cfgGet b kv.1 with
      | none => rw [hb2] at hkv; simp at hkv
      | some bv =>
        rw [hb2] at hkv
        simp only [decide_eq_true_eq] at hkv
        rw [hkv]
    · rintro ⟨-, hall⟩ kv hm
      rw [hall kv hm]
      simp
  · rw [if_pos h]
    constructor
    · intro hf
      exact absurd hf Bool.false_ne_true
    · rintro ⟨hlen, -⟩
      exact absurd hlen h

theorem cfgKeys_mem_of_lookup {a : Cfg} {k : String}
    (h : cfgGet a k ≠ none) : k ∈ a.map Prod.fst := by
  by_contra hk
  exact h (cfgGet_eq_none_iff.mpr hk)

/-- With pairwise-distinct keys on both sides, `ConfigsEqual` is exactly
extensional equality of the two maps: identical key sets, and each key
bound to an identical string value. -/
theorem ConfigsEqual_iff_lookup_eq {a b : Cfg}
    (ha : KeysNodup a) (hb : KeysNodup b) :
    ConfigsEqual a b = true ↔ ∀ k, cfgGet a k = cfgGet b k := by
  rw [ConfigsEqual_eq_true_iff]
  constructor
  · rintro ⟨hlen, hall⟩ k
    have hsub : (a.map Prod.fst).toFinset ⊆ (b.map Prod.fst).toFinset := by
      intro x hx
      rw [List.mem_toFinset] at hx ⊢
      obtain ⟨⟨k2, v2⟩, hm, hkeq⟩ := List.mem_map.mp hx
      subst hkeq
      have hbk := hall (k2, v2) hm
      exact List.mem_map_of_mem Prod.fst (cfgGet_eq_some_mem hbk)
    have hcard : (b.map Prod.fst).toFinset.card ≤ (a.map Prod.fst).toFinset.card := by
      rw [List.toFinset_card_of_nodup ha, List.toFinset_card_of_nodup hb]
      simp [hlen]
    have hkeysEq := Finset.eq_of_subset_of_card_le hsub hcard
    cases hga : cfgGet a k with
    | some v => exact (hall (k, v) (cfgGet_eq_some_mem hga)).symm
    | none =>
      have hka : k ∉ a.map Prod.fst := cfgGet_eq_none_iff.mp hga
      have hkb : k ∉ b.map Prod.fst := by
        intro hkb
        apply hka
        rw [← List.mem_toFinset, ← hkeysEq, List.mem_toFinset] at hkb
        exact hkb
      rw [cfgGet_eq_none_iff.mpr hkb]
  · intro h
    have hkeys : ∀ k, k ∈ a.map Prod.fst ↔ k ∈ b.map Prod.fst := by
      intro k
      rw [← not_iff_not, ← @cfgGet_eq_none_iff a k, ← @cfgGet_eq_none_iff b k, h k]
    refine ⟨?_, fun kv hm => ?_⟩
    · have : (a.map Prod.fst).toFinset = (b.map Prod.fst).toFinset := by
        ext x
        rw [List.mem_toFinset, List.mem_toFinset]
        exact hkeys x
      have := congrArg Finset.card this
      rw [List.toFinset_card_of_nodup ha, List.toFinset_card_of_nodup hb] at this
      simpa using this
    · rw [← h kv.1]
      exact mem_cfgGet_of_nodup ha hm

theorem addFinalizer_spec (o : DebeziumConnector) (f : String) :
    (addFinalizer o f).spec = o.spec := by
  unfold addFinalizer
  split <;> rfl

theorem addFinalizer_status (o : DebeziumConnector) (f : String) :
    (addFinalizer o f).status = o.status := by
  unfold addFinalizer
  split <;> rfl

theorem removeFinalizer_status (o : DebeziumConnector) (f : String) :
    (removeFinalizer o f).status = o.status := rfl

theorem containsFinalizer_addFinalizer (o : DebeziumConnector) (f : String) :
    containsFinalizer (addFinalizer o f) f = true := by
  unfold containsFinalizer addFinalizer
  by_cases h : o.metadata.finalizers.contains f
  · rw [if_pos h]
    exact h
  · rw [if_neg h]
    simp

theorem containsFinalizer_removeFinalizer (o : DebeziumConnector) (f : String) :
    containsFinalizer (removeFinalizer o f) f = false := by
  unfold containsFinalizer removeFinalizer
  simp

theorem reconcileSync_exists_error (env : Env) (dbc : DebeziumConnector)
    (evs : List Event) (e : ConnError)
    (hE : connectorExists env.existsResp = Except.error e) :
    reconcileSync env dbc evs =
      ⟨⟨0⟩, some (ReconcileError.upstream e), dbc,
        evs ++ [Event.callExists dbc.spec.debeziumHost
          (cfgGetD dbc.spec.config "name")]⟩ := by
  simp [reconcileSync, hE]

theorem reconcileSync_create_error (env : Env) (dbc : DebeziumConnector)
    (evs : List Event) (e : ConnError)
    (hE : connectorExists env.existsResp = Except.ok false)
    (hC : createDebeziumConnector env.createResp = Except.error e) :
    reconcileSync env dbc evs =
      ⟨⟨0⟩, some (ReconcileError.upstream e), dbc,
        evs ++ [Event.callExists dbc.spec.debeziumHost
            (cfgGetD dbc.spec.config "name"),
          Event.callCreate dbc.spec.debeziumHost dbc.spec.config]⟩ := by
  simp [reconcileSync, hE, hC]

theorem reconcileSync_create_ok (env : Env) (dbc : DebeziumConnector)
    (evs : List Event)
    (hE : connectorExists env.existsResp = Except.ok false)
    (hC : createDebeziumConnector env.createResp = Except.ok ()) :
    reconcileSync env dbc evs =
      ⟨⟨60⟩, none, dbc,
        evs ++ [Event.callExists dbc.spec.debeziumHost
            (cfgGetD dbc.spec.config "name"),
          Event.callCreate dbc.spec.debeziumHost dbc.spec.config]⟩ := by
  simp [reconcileSync, hE, hC]

theorem reconcileSync_getconfig_error (env : Env) (dbc : DebeziumConnector)
    (evs : List Event) (e : ConnError)
    (hE : connectorExists env.existsResp = Except.ok true)
    (hG : getDebeziumConnectorConfig env.getConfigResp = Except.error e) :
    reconcileSync env dbc evs =
      ⟨⟨0⟩, some (ReconcileError.upstream e), dbc,
        evs ++ [Event.callExists dbc.spec.debeziumHost
            (cfgGetD dbc.spec.config "name"),
          Event.callGetConfig dbc.spec.debeziumHost
            (cfgGetD dbc.spec.config "name")]⟩ := by
  simp [reconcileSync, hE, hG]

theorem reconcileSync_no_drift (env : Env) (dbc : DebeziumConnector)
    (evs : List Event) (cfg : Cfg)
    (hE : connectorExists env.existsResp = Except.ok true)
    (hG : getDebeziumConnectorConfig env.getConfigResp = Except.ok cfg)
    (hq : ConfigsEqual cfg dbc.spec.config = true) :
    reconcileSync env dbc evs =
      ⟨⟨60⟩, none, dbc,
        evs ++ [Event.callExists dbc.spec.debeziumHost
            (cfgGetD dbc.spec.config "name"),
          Event.callGetConfig dbc.spec.debeziumHost
            (cfgGetD dbc.spec.config "name")]⟩ := by
  simp [reconcileSync, hE, hG, hq]

theorem reconcileSync_drift_update_error (env : Env) (dbc : DebeziumConnector)
    (evs : List Event) (cfg : Cfg) (e : ConnError)
    (hE : connectorExists env.existsResp = Except.ok true)
    (hG : getDebeziumConnectorConfig env.getConfigResp = Except.ok cfg)
    (hq : ConfigsEqual cfg dbc.spec.config = false)
    (hU : updateDebeziumConnector env.updateResp = Except.error e) :
    reconcileSync env dbc evs =
      ⟨⟨0⟩, some (ReconcileError.upstream e), dbc,
        evs ++ [Event.callExists dbc.spec.debeziumHost
            (cfgGetD dbc.spec.config "name"),
          Event.callGetConfig dbc.spec.debeziumHost
            (cfgGetD dbc.spec.config "name"),
          Event.callUpdate dbc.spec.debeziumHost dbc.spec.config]⟩ := by
  simp [reconcileSync, hE, hG, hq, hU]

theorem reconcileSync_drift_update_ok (env : Env) (dbc : DebeziumConnector)
    (evs : List Event) (cfg : Cfg)
    (hE : connectorExists env.existsResp = Except.ok true)
    (hG : getDebeziumConnectorConfig env.getConfigResp = Except.ok cfg)
    (hq : ConfigsEqual cfg dbc.spec.config = false)
    (hU : updateDebeziumConnector env.updateResp = Except.ok ()) :
    reconcileSync env dbc evs =
      ⟨⟨60⟩, none, dbc,
        evs ++ [Event.callExists dbc.spec.debeziumHost
            (cfgGetD dbc.spec.config "name"),
          Event.callGetConfig dbc.spec.debeziumHost
            (cfgGetD dbc.spec.config "name"),
          Event.callUpdate dbc.spec.debeziumHost dbc.spec.config]⟩ := by
  simp [reconcileSync, hE, hG, hq, hU]

theorem reconcileSync_spec (env : Env) (dbc : DebeziumConnector)
    (evs : List Event) :
    (reconcileSync env dbc evs).stored = dbc ∧
      (∃ tl, (reconcileSync env dbc evs).events = evs ++ tl) ∧
      ((reconcileSync env dbc evs).err = none →
        (reconcileSync env dbc evs).res.requeueAfter = 60) := by
  cases hE : connectorExists env.existsResp with
  | error e =>
    rw [reconcileSync_exists_error env dbc evs e hE]
    exact ⟨rfl, ⟨_, rfl⟩, fun h => Option.noConfusion h⟩
  | ok present =>
    cases present with
    | false =>
      cases hC : createDebeziumConnector env.createResp with
      | error e =>
        rw [reconcileSync_create_error env dbc evs e hE hC]
        exact ⟨rfl, ⟨_, rfl⟩, fun h => Option.noConfusion h⟩
      | ok u =>
        cases u
        rw [reconcileSync_create_ok env dbc evs hE hC]
        exact ⟨rfl, ⟨_, rfl⟩, fun _ => rfl⟩
    | true =>
      cases hG : getDebeziumConnectorConfig env.getConfigResp with
      | error e =>
        rw [reconcileSync_getconfig_error env dbc evs e hE hG]
        exact ⟨rfl, ⟨_, rfl⟩, fun h => Option.noConfusion h⟩
      | ok cfg =>
        cases hq : ConfigsEqual cfg dbc.spec.config with
        | true =>
          rw [reconcileSync_no_drift env dbc evs cfg hE hG hq]
          exact ⟨rfl, ⟨_, rfl⟩, fun _ => rfl⟩
        | false =>
          cases hU : updateDebeziumConnector env.updateResp with
          | error e =>
            rw [reconcileSync_drift_update_error env dbc evs cfg e hE hG hq hU]
            exact ⟨rfl, ⟨_, rfl⟩, fun h => Option.noConfusion h⟩
          | ok u =>
            cases u
            rw [reconcileSync_drift_update_ok env dbc evs cfg hE hG hq hU]
            exact ⟨rfl, ⟨_, rfl⟩, fun _ => rfl⟩

theorem reconcileNormal_with_finalizer (env : Env) (dbc : DebeziumConnector)
    (h : containsFinalizer dbc debeziumFinalizer = true) :
    reconcileNormal env dbc = reconcileSync env dbc [] := by
  simp [reconcileNormal, h]

theorem reconcileNormal_register_error (env : Env) (dbc : DebeziumConnector)
    (m : String)
    (h : containsFinalizer dbc debeziumFinalizer = false)
    (hu : env.kUpdate = Except.error m) :
    reconcileNormal env dbc =
      ⟨⟨0⟩, some (ReconcileError.kubeUpdateError m), dbc,
        [Event.persistUpdate (addFinalizer dbc debeziumFinalizer)]⟩ := by
  simp [reconcileNormal, h, hu]

theorem reconcileNormal_register_ok (env : Env) (dbc : DebeziumConnector)
    (h : containsFinalizer dbc debeziumFinalizer = false)
    (hu : env.kUpdate = Except.ok ()) :
    reconcileNormal env dbc =
      reconcileSync env (addFinalizer dbc debeziumFinalizer)
        [Event.persistUpdate (addFinalizer dbc debeziumFinalizer)] := by
  simp [reconcileNormal, h, hu]

theorem reconcileFetched_live (env : Env) (dbc : DebeziumConnector)
    (h : dbc.metadata.deletionTimestampIsZero = true) :
    reconcileFetched env dbc = reconcileNormal env dbc := by
  simp [reconcileFetched, h]

theorem reconcileFetched_deleting (env : Env) (dbc : DebeziumConnector)
    (h : dbc.metadata.deletionTimestampIsZero = false) :
    reconcileFetched env dbc = reconcileDeletion env dbc := by
  simp [reconcileFetched, h]

theorem reconcileDeletion_no_finalizer (env : Env) (dbc : DebeziumConnector)
    (h : containsFinalizer dbc debeziumFinalizer = false) :
    reconcileDeletion env dbc = ⟨⟨0⟩, none, dbc, []⟩ := by
  simp [reconcileDeletion, h]

theorem reconcileDeletion_delete_error (env : Env) (dbc : DebeziumConnector)
    (e : ConnError)
    (h : containsFinalizer dbc debeziumFinalizer = true)
    (hd : deleteDebeziumConnector env.deleteResp = Except.error e) :
    reconcileDeletion env dbc =
      ⟨⟨0⟩, some (ReconcileError.upstream e), dbc,
        [Event.callDelete dbc.spec.debeziumHost
          (cfgGetD dbc.spec.config "name")]⟩ := by
  simp [reconcileDeletion, h, hd]

theorem reconcileDeletion_release_error (env : Env) (dbc : DebeziumConnector)
    (m : String)
    (h : containsFinalizer dbc debeziumFinalizer = true)
    (hd : deleteDebeziumConnector env.deleteResp = Except.ok ())
    (hu : env.kUpdate = Except.error m) :
    reconcileDeletion env dbc =
      ⟨⟨0⟩, some (ReconcileError.kubeUpdateError m), dbc,
        [Event.callDelete dbc.spec.debeziumHost
            (cfgGetD dbc.spec.config "name"),
          Event.persistUpdate (removeFinalizer dbc debeziumFinalizer)]⟩ := by
  simp [reconcileDeletion, h, hd, hu]

theorem reconcileDeletion_release_ok (env : Env) (dbc : DebeziumConnector)
    (h : containsFinalizer dbc debeziumFinalizer = true)
    (hd : deleteDebeziumConnector env.deleteResp = Except.ok ())
    (hu : env.kUpdate = Except.ok ()) :
    reconcileDeletion env dbc =
      ⟨⟨0⟩, none, removeFinalizer dbc debeziumFinalizer,
        [Event.callDelete dbc.spec.debeziumHost
            (cfgGetD dbc.spec.config "name"),
          Event.persistUpdate (removeFinalizer dbc debeziumFinalizer)]⟩ := by
  simp [reconcileDeletion, h, hd, hu]

theorem bool_eq_false_of_not_true {b : Bool} (h : ¬ b = true) : b = false := by
  cases b
  · rfl
  · exact absurd rfl h

/-- C5 (confirmed): `ConfigsEqual a b` holds exactly when the two maps
have identical key sets and every key is bound to byte-identical
string values; no coercion, normalization or default inference takes
part in the comparison. -/
theorem C5_configs_equal_strict (a b : Cfg)
    (ha : KeysNodup a) (hb : KeysNodup b) :
    ConfigsEqual a b = true ↔
      ((∀ k, k ∈ a.map Prod.fst ↔ k ∈ b.map Prod.fst) ∧
        ∀ k v, cfgGet a k = some v → cfgGet b k = some v) := by
  rw [ConfigsEqual_iff_lookup_eq ha hb]
  constructor
  · intro h
    refine ⟨fun k => ?_, fun k v hv => ?_⟩
    · rw [← not_iff_not, ← @cfgGet_eq_none_iff a k, ← @cfgGet_eq_none_iff b k,
        h k]
    · rw [← h k]
      exact hv
  · rintro ⟨hkeys, hval⟩ k
    cases hv : cfgGet a k with
    | some v => exact (hval k v hv).symm
    | none =>
      have hknb : k ∉ b.map Prod.fst := fun hk =>
        (cfgGet_eq_none_iff.mp hv) ((hkeys k).mpr hk)
      rw [cfgGet_eq_none_iff.mpr hknb]

/-- C5 witness: the characterization applied at concrete one-entry
maps. -/
theorem C5_configs_equal_strict_witness :
    KeysNodup [("name", "c1")] ∧
      (ConfigsEqual [("name", "c1")] [("name", "c1")] = true ↔
        ((∀ k, k ∈ ([("name", "c1")] : Cfg).map Prod.fst ↔
            k ∈ ([("name", "c1")] : Cfg).map Prod.fst) ∧
          ∀ k v, cfgGet [("name", "c1")] k = some v →
            cfgGet [("name", "c1")] k = some v)) :=
  ⟨by decide, C5_configs_equal_strict _ _ (by decide) (by decide)⟩

/-- C8 (confirmed): `connectorExists` classifies the upstream
response: 200 means present, 404 means absent, and any other status
yields an error that carries the status and the response body rather
than reporting absence. -/
theorem C8_exists_classification (resp : HttpResp) :
    (resp.status = 200 →
        connectorExists (HttpOutcome.response resp) = Except.ok true) ∧
      (resp.status = 404 →
        connectorExists (HttpOutcome.response resp) = Except.ok false) ∧
      (resp.status ≠ 200 → resp.status ≠ 404 →
        connectorExists (HttpOutcome.response resp) =
          Except.error (ConnError.unexpectedStatus resp.status resp.body)) := by
  refine ⟨fun h => ?_, fun h => ?_, fun h1 h2 => ?_⟩
  · simp [connectorExists, h]
  · simp [connectorExists, h]
  · simp [connectorExists, h1, h2]

/-- C8 witness: the classification evaluated at statuses 200, 404 and
500. -/
theorem C8_exists_classification_witness :
    connectorExists (HttpOutcome.response ⟨200, ""⟩) = Except.ok true ∧
      connectorExists (HttpOutcome.response ⟨404, ""⟩) = Except.ok false ∧
      connectorExists (HttpOutcome.response ⟨500, "oops"⟩) =
        Except.error (ConnError.unexpectedStatus 500 "oops") :=
  ⟨(C8_exists_classification ⟨200, ""⟩).1 rfl,
    (C8_exists_classification ⟨404, ""⟩).2.1 rfl,
    (C8_exists_classification ⟨500, "oops"⟩).2.2 (by decide) (by decide)⟩

/-- C10 (confirmed): when the store lookup reports the record as gone,
`Reconcile` returns success — no error, no requeue, no calls. -/
theorem C10_gone_record_is_success (env : Env)
    (h : env.kGet = KGetOutcome.notFound) :
    Reconcile env = ⟨⟨0⟩, none, none, []⟩ := by
  simp [Reconcile, h]

/-- C10 witness: the not-found pass evaluated at a concrete
environment. -/
theorem C10_gone_record_is_success_witness :
    Reconcile envNotFound = ⟨⟨0⟩, none, none, []⟩ :=
  C10_gone_record_is_success envNotFound rfl

/-- C4 (confirmed): on a deleting record carrying the finalizer, if
the upstream delete call returns an error, the pass returns that error
as retryable and leaves the record untouched: the stored record is
unchanged (finalizer still present) and no `r.Update` is issued. -/
theorem C4_no_release_without_confirmation (env : Env)
    (dbc : DebeziumConnector) (e : ConnError)
    (hdel : dbc.metadata.deletionTimestampIsZero = false)
    (hfin : containsFinalizer dbc debeziumFinalizer = true)
    (herr : deleteDebeziumConnector env.deleteResp = Except.error e) :
    (reconcileFetched env dbc).err = some (ReconcileError.upstream e) ∧
      (reconcileFetched env dbc).stored = dbc ∧
      (reconcileFetched env dbc).events.filter isPersistUpdate = [] := by
  rw [reconcileFetched_deleting env dbc hdel,
    reconcileDeletion_delete_error env dbc e hfin herr]
  refine ⟨rfl, rfl, ?_⟩
  simp [isPersistUpdate]

/-- C4 witness: the failed-delete pass evaluated at a concrete record
and a DELETE answered 404. -/
theorem C4_no_release_without_confirmation_witness :
    (reconcileFetched envDelete404 sampleDeletingRecord).err =
        some (ReconcileError.upstream (ConnError.unexpectedStatus 404 "")) ∧
      (reconcileFetched envDelete404 sampleDeletingRecord).stored =
        sampleDeletingRecord ∧
      (reconcileFetched envDelete404 sampleDeletingRecord).events.filter
        isPersistUpdate = [] :=
  C4_no_release_without_confirmation envDelete404 sampleDeletingRecord
    (ConnError.unexpectedStatus 404 "") rfl (by decide) (by decide)

/-- C1 counterexample: at the concrete deleting record whose connector
is already absent upstream (DELETE answered 404), the pass does not
succeed — it returns an error and the finalizer is not released, so
the record does not become removable. -/
theorem C1_counterexample :
    (reconcileFetched envDelete404 sampleDeletingRecord).err =
        some (ReconcileError.upstream (ConnError.unexpectedStatus 404 "")) ∧
      containsFinalizer (reconcileFetched envDelete404 sampleDeletingRecord).stored
        debeziumFinalizer = true := by
  decide

/-- C1 (amended): a DELETE answered with 404 — the connector already
absent — is returned as a retryable error like any other unexpected
status, and the finalizer is retained; only 200/204 release it. -/
theorem C1_delete_absent_is_retryable (env : Env)
    (dbc : DebeziumConnector) (body : String)
    (hdel : dbc.metadata.deletionTimestampIsZero = false)
    (hfin : containsFinalizer dbc debeziumFinalizer = true)
    (h404 : env.deleteResp = HttpOutcome.response ⟨404, body⟩) :
    (reconcileFetched env dbc).err =
        some (ReconcileError.upstream (ConnError.unexpectedStatus 404 body)) ∧
      containsFinalizer (reconcileFetched env dbc).stored
        debeziumFinalizer = true := by
  have herr : deleteDebeziumConnector env.deleteResp =
      Except.error (ConnError.unexpectedStatus 404 body) := by
    rw [h404]
    rfl
  rw [reconcileFetched_deleting env dbc hdel,
    reconcileDeletion_delete_error env dbc _ hfin herr]
  exact ⟨rfl, hfin⟩

/-- C1 witness: the amended statement applied at the concrete deleting
record and environment. -/
theorem C1_delete_absent_is_retryable_witness :
    (reconcileFetched envDelete404 sampleDeletingRecord).err =
        some (ReconcileError.upstream (ConnError.unexpectedStatus 404 "")) ∧
      containsFinalizer (reconcileFetched envDelete404 sampleDeletingRecord).stored
        debeziumFinalizer = true :=
  C1_delete_absent_is_retryable envDelete404 sampleDeletingRecord ""
    rfl (by decide) rfl

/-- C3 (confirmed): on a live record without the finalizer, the very
first event of the pass is the persist of the finalizer-bearing
record — so the finalizer is set and persisted before any external
call — and whenever a create call was issued, the stored record still
carries the finalizer (in particular after an injected create
failure). -/
theorem C3_finalizer_before_create (env : Env) (dbc : DebeziumConnector)
    (hlive : dbc.metadata.deletionTimestampIsZero = true)
    (hfin : containsFinalizer dbc debeziumFinalizer = false) :
    (reconcileFetched env dbc).events.head? =
        some (Event.persistUpdate (addFinalizer dbc debeziumFinalizer)) ∧
      containsFinalizer (addFinalizer dbc debeziumFinalizer)
        debeziumFinalizer = true ∧
      (∀ h c, Event.callCreate h c ∈ (reconcileFetched env dbc).events →
        containsFinalizer (reconcileFetched env dbc).stored
          debeziumFinalizer = true) := by
  rw [reconcileFetched_live env dbc hlive]
  cases hu : env.kUpdate with
  | error m =>
    rw [reconcileNormal_register_error env dbc m hfin hu]
    refine ⟨rfl, containsFinalizer_addFinalizer dbc _, ?_⟩
    intro h c hmem
    simp at hmem
  | ok u =>
    cases u
    rw [reconcileNormal_register_ok env dbc hfin hu]
    obtain ⟨hst, ⟨tl, hev⟩, -⟩ := reconcileSync_spec env
      (addFinalizer dbc debeziumFinalizer)
      [Event.persistUpdate (addFinalizer dbc debeziumFinalizer)]
    refine ⟨?_, containsFinalizer_addFinalizer dbc _, ?_⟩
    · rw [hev]
      rfl
    · intro h c hmem
      rw [hst]
      exact containsFinalizer_addFinalizer dbc _

/-- C3 witness: the ordering property applied at the fresh record and
an environment whose create call fails. -/
theorem C3_finalizer_before_create_witness :
    (reconcileFetched envCreateFails sampleFreshRecord).events.head? =
        some (Event.persistUpdate
          (addFinalizer sampleFreshRecord debeziumFinalizer)) ∧
      containsFinalizer (addFinalizer sampleFreshRecord debeziumFinalizer)
        debeziumFinalizer = true ∧
      (∀ h c, Event.callCreate h c ∈
          (reconcileFetched envCreateFails sampleFreshRecord).events →
        containsFinalizer (reconcileFetched envCreateFails sampleFreshRecord).stored
          debeziumFinalizer = true) :=
  C3_finalizer_before_create envCreateFails sampleFreshRecord rfl rfl

/-- C2 (confirmed): in a non-deletion pass that reaches the existence
check (finalizer already present, or its registration persisted) and
finds the connector present, the engine fetches the observed config
and compares with `ConfigsEqual`: when equal it issues no mutating
call and the pass succeeds; when unequal it issues exactly one
mutating call — an update whose body is the desired config, not the
observed one. -/
theorem C2_drift_correction (env : Env) (dbc : DebeziumConnector)
    (observed : Cfg)
    (hlive : dbc.metadata.deletionTimestampIsZero = true)
    (hreach : containsFinalizer dbc debeziumFinalizer = true ∨
      env.kUpdate = Except.ok ())
    (hex : connectorExists env.existsResp = Except.ok true)
    (hcfg : getDebeziumConnectorConfig env.getConfigResp =
      Except.ok observed) :
    (ConfigsEqual observed dbc.spec.config = true →
        (reconcileFetched env dbc).events.filter isMutatingCall = [] ∧
          (reconcileFetched env dbc).err = none) ∧
      (ConfigsEqual observed dbc.spec.config = false →
        (reconcileFetched env dbc).events.filter isMutatingCall =
          [Event.callUpdate dbc.spec.debeziumHost dbc.spec.config]) := by
  rw [reconcileFetched_live env dbc hlive]
  have key : ∀ (d : DebeziumConnector) (evs : List Event),
      d.spec = dbc.spec →
      evs.filter isMutatingCall = [] →
      (ConfigsEqual observed dbc.spec.config = true →
          (reconcileSync env d evs).events.filter isMutatingCall = [] ∧
            (reconcileSync env d evs).err = none) ∧
        (ConfigsEqual observed dbc.spec.config = false →
          (reconcileSync env d evs).events.filter isMutatingCall =
            [Event.callUpdate dbc.spec.debeziumHost dbc.spec.config]) := by
    intro d evs hspec hevs
    constructor
    · intro heq
      rw [reconcileSync_no_drift env d evs observed hex hcfg
        (by rw [hspec]; exact heq)]
      constructor
      · simp [List.filter_append, hevs, isMutatingCall]
      · rfl
    · intro hne
      cases hU : updateDebeziumConnector env.updateResp with
      | error e =>
        rw [reconcileSync_drift_update_error env d evs observed e hex hcfg
          (by rw [hspec]; exact hne) hU]
        simp [List.filter_append, hevs, isMutatingCall, hspec]
      | ok u =>
        cases u
        rw [reconcileSync_drift_update_ok env d evs observed hex hcfg
          (by rw [hspec]; exact hne) hU]
        simp [List.filter_append, hevs, isMutatingCall, hspec]
  rcases hreach with hf | hu
  · rw [reconcileNormal_with_finalizer env dbc hf]
    exact key dbc [] rfl rfl
  · by_cases hf : containsFinalizer dbc debeziumFinalizer = true
    · rw [reconcileNormal_with_finalizer env dbc hf]
      exact key dbc [] rfl rfl
    · rw [reconcileNormal_register_ok env dbc
        (bool_eq_false_of_not_true hf) hu]
      exact key (addFinalizer dbc debeziumFinalizer) _
        (addFinalizer_spec dbc _) (by simp [isMutatingCall])

/-- C2 witness: the no-drift side evaluated at the live record and an
upstream reporting the identical config. -/
theorem C2_drift_correction_witness :
    (reconcileFetched envNoDrift sampleLiveRecord).events.filter
        isMutatingCall = [] ∧
      (reconcileFetched envNoDrift sampleLiveRecord).err = none :=
  (C2_drift_correction envNoDrift sampleLiveRecord sampleConfig rfl
    (Or.inl (by decide)) rfl rfl).1 (by decide)

/-- C9 (confirmed): every successful non-deletion pass asks to be
re-invoked after 60 time-units; a deletion pass never requests a
requeue. -/
theorem C9_requeue_policy (env : Env) (dbc : DebeziumConnector) :
    (dbc.metadata.deletionTimestampIsZero = true →
        (reconcileFetched env dbc).err = none →
        (reconcileFetched env dbc).res.requeueAfter = 60) ∧
      (dbc.metadata.deletionTimestampIsZero = false →
        (reconcileFetched env dbc).res.requeueAfter = 0) := by
  constructor
  · intro hlive herr
    rw [reconcileFetched_live env dbc hlive] at herr ⊢
    by_cases hf : containsFinalizer dbc debeziumFinalizer = true
    · rw [reconcileNormal_with_finalizer env dbc hf] at herr ⊢
      exact (reconcileSync_spec env dbc []).2.2 herr
    · have hf2 := bool_eq_false_of_not_true hf
      cases hu : env.kUpdate with
      | error m =>
        rw [reconcileNormal_register_error env dbc m hf2 hu] at herr
        exact Option.noConfusion herr
      | ok u =>
        cases u
        rw [reconcileNormal_register_ok env dbc hf2 hu] at herr ⊢
        exact (reconcileSync_spec env _ _).2.2 herr
  · intro hdel
    rw [reconcileFetched_deleting env dbc hdel]
    by_cases hf : containsFinalizer dbc debeziumFinalizer = true
    · cases hd : deleteDebeziumConnector env.deleteResp with
      | error e =>
        rw [reconcileDeletion_delete_error env dbc e hf hd]
      | ok u =>
        cases u
        cases hu : env.kUpdate with
        | error m =>
          rw [reconcileDeletion_release_error env dbc m hf hd hu]
        | ok u2 =>
          cases u2
          rw [reconcileDeletion_release_ok env dbc hf hd hu]
    · rw [reconcileDeletion_no_finalizer env dbc
        (bool_eq_false_of_not_true hf)]

/-- C9 witness: the requeue policy evaluated at a successful no-drift
pass and at a deletion pass. -/
theorem C9_requeue_policy_witness :
    (reconcileFetched envNoDrift sampleLiveRecord).res.requeueAfter = 60 ∧
      (reconcileFetched envDelete404 sampleDeletingRecord).res.requeueAfter = 0 :=
  ⟨(C9_requeue_policy envNoDrift sampleLiveRecord).1 rfl (by decide),
    (C9_requeue_policy envDelete404 sampleDeletingRecord).2 rfl⟩

/-- C6 (code bug): the reconcile pass never writes the record's status
sub-object — in every pass, deletion or not, successful or not, the
stored record's status equals the input status, and the status type
itself (`DebeziumConnectorStatus`) declares no phase field that could
hold RUNNING/PAUSED/TASK_FAILED/UNKNOWN, although the project README
documents such status updates. -/
theorem C6_status_never_written (env : Env) (dbc : DebeziumConnector) :
    (reconcileFetched env dbc).stored.status = dbc.status := by
  by_cases hd : dbc.metadata.deletionTimestampIsZero = false
  · rw [reconcileFetched_deleting env dbc hd]
    by_cases hf : containsFinalizer dbc debeziumFinalizer = true
    · cases hdel : deleteDebeziumConnector env.deleteResp with
      | error e =>
        rw [reconcileDeletion_delete_error env dbc e hf hdel]
      | ok u =>
        cases u
        cases hu : env.kUpdate with
        | error m =>
          rw [reconcileDeletion_release_error env dbc m hf hdel hu]
        | ok u2 =>
          cases u2
          rw [reconcileDeletion_release_ok env dbc hf hdel hu]
          exact removeFinalizer_status dbc _
    · rw [reconcileDeletion_no_finalizer env dbc
        (bool_eq_false_of_not_true hf)]
  · have hd2 : dbc.metadata.deletionTimestampIsZero = true := by
      cases h : dbc.metadata.deletionTimestampIsZero
      · exact absurd h hd
      · rfl
    rw [reconcileFetched_live env dbc hd2]
    by_cases hf : containsFinalizer dbc debeziumFinalizer = true
    · rw [reconcileNormal_with_finalizer env dbc hf,
        (reconcileSync_spec env dbc []).1]
    · have hf2 := bool_eq_false_of_not_true hf
      cases hu : env.kUpdate with
      | error m =>
        rw [reconcileNormal_register_error env dbc m hf2 hu]
      | ok u =>
        cases u
        rw [reconcileNormal_register_ok env dbc hf2 hu,
          (reconcileSync_spec env _ _).1]
        exact addFinalizer_status dbc _

/-- C7 counterexample: the delegating revision of the validation gate
admits the concrete record whose config lacks `name` (host and
`connector.class` present, upstream reporting no errors), so the gate
does not reject every name-less record. -/
theorem C7_counterexample :
    cfgGet namelessRecord.spec.config "name" = none ∧
      validateDebeziumConnectorExt namelessRecord validateOkResp = none := by
  decide

/-- C7 (amended): the gate always rejects a record whose config lacks
`connector.class`; a record lacking only `name` is rejected by the
local-check revision of the webhook, but the delegating revision can
admit it, so the engine cannot rely on `name` being present. -/
theorem C7_gate_guarantees (r : DebeziumConnector)
    (resp : ValidateRespOutcome) :
    (cfgGet r.spec.config "connector.class" = none →
        validateDebeziumConnectorExt r resp ≠ none) ∧
      (cfgGet r.spec.config "name" = none →
        validateDebeziumConnectorLocal r ≠ none) := by
  constructor
  · intro hcc
    unfold validateDebeziumConnectorExt
    rw [hcc]
    simp
  · intro hname
    unfold validateDebeziumConnectorLocal
    by_cases hlen : r.spec.config.length = 0
    · simp [hlen]
    · simp [hlen, hname]

/-- C7 witness: the local-check revision rejecting the concrete
name-less record. -/
theorem C7_gate_guarantees_witness :
    validateDebeziumConnectorLocal namelessRecord ≠ none :=
  (C7_gate_guarantees namelessRecord validateOkResp).2 (by decide)
